import Mathlib

/-!
Shallow embedding of the PDF coordinate extractor (src/src/index.ts).

The program reads a keyword configuration, parses the first page of a PDF
with pdf2json, scales each text fragment's raw position into a template
coordinate space, matches fragment text against keywords and serializes the
matches.  Numbers are modelled as rationals (JS numbers without
overflow/NaN concerns in the specified scenarios), JS `Math.round` as
floor(q + 1/2), and strings as Lean strings with list-based lowercase /
trim / substring-containment functions mirroring the ASCII behaviour of
`toLowerCase`, `trim` and `includes`.
-/

/-- JS `Math.round`: round half toward positive infinity. -/
def jsRound (q : ℚ) : ℤ := Rat.floor (q + 1/2)

/-- JS `String.prototype.toLowerCase` (ASCII model). -/
def jsToLower (s : String) : String := ⟨s.data.map Char.toLower⟩

/-- JS `String.prototype.trim`: strip whitespace from both ends. -/
def jsTrim (s : String) : String :=
  ⟨((s.data.dropWhile Char.isWhitespace).reverse.dropWhile Char.isWhitespace).reverse⟩

/-- Model of the test hay.toLowerCase().includes(needle.toLowerCase())
(index.ts line 96): case-insensitive contiguous substring containment. -/
def strIncludes (hay needle : String) : Bool :=
  let h := (jsToLower hay).data
  let n := (jsToLower needle).data
  (List.range (h.length + 1)).any fun i => n.isPrefixOf (h.drop i)

/-- One entry of the keywords configuration (index.ts lines 28-31). -/
structure KeywordPattern where
  field : String
  keyword : String
deriving DecidableEq

/-- One pdf2json text run: decoded text `T` plus optional text-style metadata
`TS = [fontFaceId, fontSize, bold, italic]` (the source reads `TS[1]`).
`T` holds the already-URI-decoded text (`decodeURIComponent` is part of the
external parser adapter and is the identity on the decoded form). -/
structure TextRun where
  T : String
  TS : Option (ℚ × ℚ × ℚ × ℚ)
deriving DecidableEq

/-- One pdf2json text item: raw position `x`, `y`, raw width `w`, runs `R`. -/
structure TextItem where
  x : ℚ
  y : ℚ
  w : ℚ
  R : List TextRun
deriving DecidableEq

/-- One pdf2json page: raw dimensions plus its text items (a missing `Texts`
field in the parser output behaves as the empty list under the source's
`if (page.Texts)` guard). -/
structure Page where
  Width : ℚ
  Height : ℚ
  Texts : List TextItem
deriving DecidableEq

/-- Parsed pdf2json document data (only `Pages` is consumed). -/
structure PdfData where
  Pages : List Page
deriving DecidableEq

/-- Output record for one keyword match (index.ts lines 9-17). -/
structure CoordinateResult where
  field : String
  x : ℤ
  y : ℤ
  width : ℤ
  height : ℤ
  matchText : String
deriving DecidableEq

/-- The scale factors of index.ts lines 85-86 (and identically lines 139-140):
scaleX = templateWidth / page.Width, and
scaleY = templateHeight ? templateHeight / page.Height : scaleX.
JS truthiness: an absent templateHeight and a zero templateHeight both take
the fallback branch. -/
def scaleXY (templateWidth : ℚ) (templateHeight : Option ℚ) (page : Page) : ℚ × ℚ :=
  let scaleX := templateWidth / page.Width
  let scaleY :=
    match templateHeight with
    | some h => if h = 0 then scaleX else h / page.Height
    | none => scaleX
  (scaleX, scaleY)

/-- Body of the per-run loop of extractCoordinates (index.ts lines 90-116):
trim the decoded run text, skip it when empty, otherwise scan the keywords in
list order and emit one CoordinateResult for the first case-insensitive
substring match (the source's `break`), or nothing when no keyword matches. -/
def runResult (keywords : List KeywordPattern) (templateX templateY scaleX scaleY : ℚ)
    (ti : TextItem) (run : TextRun) : Option CoordinateResult :=
  let text := jsTrim run.T
  if text.length = 0 then none
  else
    (keywords.find? fun kw => strIncludes text kw.keyword).map fun kw =>
      { field := kw.field
        x := jsRound (templateX + ti.x * scaleX)
        y := jsRound (templateY + ti.y * scaleY)
        width := jsRound (ti.w * scaleX)
        height := jsRound ((match run.TS with
          | some ts => ts.2.1
          | none => 12) * scaleY)
        matchText := text }

/-- extractCoordinates (index.ts lines 67-121), with the PDF parse delegated:
the already-parsed pdf2json data is passed in.  Throws become `Except.error`. -/
def extractCoordinates (keywords : List KeywordPattern) (pdfData : PdfData)
    (templateX templateY templateWidth : ℚ) (templateHeight : Option ℚ) :
    Except String (List CoordinateResult) :=
  if keywords.length = 0 then .error "No keywords loaded."
  else
    match pdfData.Pages with
    | [] => .error "No pages found in PDF"
    | page :: _ =>
      let s := scaleXY templateWidth templateHeight page
      .ok (page.Texts.flatMap fun ti =>
        ti.R.filterMap (runResult keywords templateX templateY s.1 s.2 ti))

/-- One entry of the scan listing (index.ts line 129). -/
structure TextEntry where
  text : String
  x : ℤ
  y : ℤ
deriving DecidableEq

/-- Body of the per-run loop of listAllText (index.ts lines 143-154). -/
def listRun (templateX templateY scaleX scaleY : ℚ) (ti : TextItem) (run : TextRun) :
    Option TextEntry :=
  let text := jsTrim run.T
  if text.length > 0 then
    some { text := text
           x := jsRound (templateX + ti.x * scaleX)
           y := jsRound (templateY + ti.y * scaleY) }
  else none

/-- listAllText (index.ts lines 123-158), with the PDF parse delegated. -/
def listAllText (pdfData : PdfData) (templateX templateY templateWidth : ℚ)
    (templateHeight : Option ℚ) : Except String (List TextEntry) :=
  match pdfData.Pages with
  | [] => .error "No pages found in PDF"
  | page :: _ =>
    let s := scaleXY templateWidth templateHeight page
    .ok (page.Texts.flatMap fun ti =>
      ti.R.filterMap (listRun templateX templateY s.1 s.2 ti))

/-- A JSON scalar value appearing in the output records. -/
inductive JsonVal where
  | num : ℤ → JsonVal
  | str : String → JsonVal
deriving DecidableEq

/-- A JS object, as an ordered key/value list. -/
abbrev JsonObj := List (String × JsonVal)

/-- The record literal built for one result, identically in generateJSON
(index.ts lines 163-169) and generateArray (lines 179-185): x, y, width,
height and matchText. -/
def resultRecord (c : CoordinateResult) : JsonObj :=
  [("x", .num c.x), ("y", .num c.y), ("width", .num c.width),
   ("height", .num c.height), ("matchText", .str c.matchText)]

/-- JS property assignment `acc[k] = v` on an object: replace the binding in
place when the key is present, otherwise append it. -/
def objSet (acc : List (String × JsonObj)) (k : String) (v : JsonObj) :
    List (String × JsonObj) :=
  if acc.any (fun p => p.1 == k) then
    acc.map fun p => if p.1 == k then (k, v) else p
  else acc ++ [(k, v)]

/-- generateJSON (index.ts lines 160-175): the field-keyed mapping stored
under the "coordinates" key of its output (the enclosing envelope and the
JSON.stringify pretty-printing are not modelled). -/
def generateJSON (coordinates : List CoordinateResult) : List (String × JsonObj) :=
  coordinates.foldl (fun acc coord => objSet acc coord.field (resultRecord coord)) []

/-- generateArray (index.ts lines 177-188): the field-keyed mapping it
returns, which the extract action persists via JSON.stringify when
`--format array` and `--output` are given (lines 285-290). -/
def generateArray (coordinates : List CoordinateResult) : List (String × JsonObj) :=
  coordinates.foldl (fun acc coord => objSet acc coord.field (resultRecord coord)) []

/-- The record printed per field by the console PHP-array rendering
(index.ts line 273): x, y, width and height only; matchText appears there
solely as a trailing comment annotation. -/
def consoleArrayRecord (c : CoordinateResult) : JsonObj :=
  [("x", .num c.x), ("y", .num c.y), ("width", .num c.width),
   ("height", .num c.height)]

/-- A parsed keywords payload: `keywords = some l` when the top-level
keywords field is present and an array (the source's
`data.keywords && Array.isArray(data.keywords)` test), `none` otherwise. -/
structure KeywordsPayload where
  keywords : Option (List KeywordPattern)
deriving DecidableEq

/-- loadKeywords (index.ts lines 38-49) after file reading and JSON parsing:
reject a payload without an array-valued keywords field, accept any array
(no per-entry validation). -/
def loadKeywords (payload : KeywordsPayload) : Except String (List KeywordPattern) :=
  match payload.keywords with
  | none => .error "Invalid keywords format"
  | some l => .ok l

/-- Observable outcome of one run of the extract command: process exit code
and the optionally written output file (path and persisted mapping). -/
structure ExtractOutcome where
  exitCode : ℕ
  written : Option (String × List (String × JsonObj))
deriving DecidableEq

/-- The extract command action (index.ts lines 218-302) after the PDF parse:
load keywords (exit 1 on failure), extract (exit 1 on any thrown error),
exit 1 writing nothing when zero results, otherwise exit 0 and, when an
output path was given, persist the array mapping for `--format array` and
the JSON mapping otherwise. -/
def extractAction (payload : KeywordsPayload) (pdfData : PdfData)
    (templateX templateY templateWidth : ℚ) (templateHeight : Option ℚ)
    (outputPath : Option String) (format : String) : ExtractOutcome :=
  match loadKeywords payload with
  | .error _ => { exitCode := 1, written := none }
  | .ok kws =>
    match extractCoordinates kws pdfData templateX templateY templateWidth templateHeight with
    | .error _ => { exitCode := 1, written := none }
    | .ok coordinates =>
      if coordinates.length = 0 then { exitCode := 1, written := none }
      else
        { exitCode := 0
          written := outputPath.map fun p =>
            (p, if format = "array" then generateArray coordinates
                else generateJSON coordinates) }

/-- README variant (pdf.js backend): the x/y normalization inside its
extractCoordinates (README lines 347-351), which flips the raw y with
viewport.height - transform[5]. -/
def readmeExtractXY (templateX templateY scaleX scaleY viewportHeight t4 t5 : ℚ) :
    ℤ × ℤ :=
  (jsRound (templateX + t4 * scaleX),
   jsRound (templateY + (viewportHeight - t5) * scaleY))

/-- README variant (pdf.js backend): the x/y normalization inside its
listAllText (README lines 401-405), the same flipped formula. -/
def readmeScanXY (templateX templateY scaleX scaleY viewportHeight t4 t5 : ℚ) :
    ℤ × ℤ :=
  (jsRound (templateX + t4 * scaleX),
   jsRound (templateY + (viewportHeight - t5) * scaleY))

/-- Sample page from the spec scenario: raw size 612x792, one fragment
"Date: 01/02/2024" at raw position (100, 700), raw width 200, no TS. -/
def samplePage : Page :=
  { Width := 612, Height := 792
    Texts := [{ x := 100, y := 700, w := 200
                R := [{ T := "Date: 01/02/2024", TS := none }] }] }

/-- Sample parsed document holding just samplePage. -/
def samplePdf : PdfData := ⟨[samplePage]⟩

/-- Keyword configuration of the spec scenario. -/
def dateKeywords : List KeywordPattern := [⟨"date_label", "Date"⟩]

/-- The result extractCoordinates computes for the spec scenario with
templateWidth 210 and no templateHeight. -/
def sampleResult : CoordinateResult :=
  ⟨"date_label", 34, 240, 69, 4, "Date: 01/02/2024"⟩

/-- A run carrying TS metadata with fontSize 9, for concrete evaluation. -/
def tsRun : TextRun := ⟨"Total Amount", some (0, 9, 0, 0)⟩

/-- A text item holding tsRun at raw position (10, 20), raw width 30. -/
def tsItem : TextItem := ⟨10, 20, 30, [tsRun]⟩

/-- A single keyword matching tsRun. -/
def totalKeywords : List KeywordPattern := [⟨"total_amount_label", "Total Amount"⟩]

/-- The result runResult computes for tsRun with unit scales. -/
def tsResult : CoordinateResult := ⟨"total_amount_label", 10, 20, 30, 9, "Total Amount"⟩

/-- A document whose only fragment matches no keyword, for concrete runs. -/
def helloPdf : PdfData :=
  ⟨[⟨612, 792, [⟨5, 5, 10, [⟨"hello world", none⟩]⟩]⟩]⟩

/- ------------------------------------------------------------------ -/
/- Theorems                                                            -/
/- ------------------------------------------------------------------ -/

/-- A nonempty string has nonzero length. -/
theorem string_length_ne_zero {s : String} (h : s ≠ "") : s.length ≠ 0 := by
  intro hl
  apply h
  cases s with
  | mk d =>
    cases d with
    | nil => rfl
    | cons c t => simp [String.length] at hl

/-- Inversion for runResult: a produced result comes from a nonempty trimmed
text whose first matching keyword supplies the field, with the coordinate
formulas filled in. -/
theorem runResult_eq_some {keywords : List KeywordPattern}
    {templateX templateY scaleX scaleY : ℚ} {ti : TextItem} {run : TextRun}
    {r : CoordinateResult}
    (h : runResult keywords templateX templateY scaleX scaleY ti run = some r) :
    (jsTrim run.T).length ≠ 0 ∧
    ∃ kw, keywords.find? (fun k => strIncludes (jsTrim run.T) k.keyword) = some kw ∧
      r = { field := kw.field
            x := jsRound (templateX + ti.x * scaleX)
            y := jsRound (templateY + ti.y * scaleY)
            width := jsRound (ti.w * scaleX)
            height := jsRound ((match run.TS with
              | some ts => ts.2.1
              | none => 12) * scaleY)
            matchText := jsTrim run.T } := by
  unfold runResult at h
  by_cases hlen : (jsTrim run.T).length = 0
  · simp [hlen] at h
  · rw [if_neg hlen, Option.map_eq_some'] at h
    obtain ⟨kw, hfind, hr⟩ := h
    exact ⟨hlen, kw, hfind, hr.symm⟩

/-- When extraction succeeds it returns exactly the per-run results of the
first page, with the scales of scaleXY. -/
theorem extractCoordinates_ok (keywords : List KeywordPattern) (pdfData : PdfData)
    (templateX templateY templateWidth : ℚ) (templateHeight : Option ℚ)
    (page : Page) (rest : List Page)
    (hk : keywords ≠ []) (hp : pdfData.Pages = page :: rest) :
    extractCoordinates keywords pdfData templateX templateY templateWidth templateHeight =
      .ok (page.Texts.flatMap fun ti =>
        ti.R.filterMap (runResult keywords templateX templateY
          (scaleXY templateWidth templateHeight page).1
          (scaleXY templateWidth templateHeight page).2 ti)) := by
  have hlen : ¬ keywords.length = 0 := by
    simpa using fun hnil => hk (List.length_eq_zero.mp hnil)
  unfold extractCoordinates
  rw [if_neg hlen, hp]

/-- When the document has a page, listAllText returns exactly the per-run
entries of the first page, with the scales of scaleXY. -/
theorem listAllText_ok (pdfData : PdfData)
    (templateX templateY templateWidth : ℚ) (templateHeight : Option ℚ)
    (page : Page) (rest : List Page) (hp : pdfData.Pages = page :: rest) :
    listAllText pdfData templateX templateY templateWidth templateHeight =
      .ok (page.Texts.flatMap fun ti =>
        ti.R.filterMap (listRun templateX templateY
          (scaleXY templateWidth templateHeight page).1
          (scaleXY templateWidth templateHeight page).2 ti)) := by
  unfold listAllText
  rw [hp]

/-- C2: with templateHeight unset the Y scale factor reuses the X scale
factor, and both equal templateWidth / pageWidth; scaleXY is the scale
computation shared verbatim by extractCoordinates (lines 85-86) and
listAllText (lines 139-140). -/
theorem uniform_scale_invariant (templateWidth : ℚ) (page : Page) :
    (scaleXY templateWidth none page).2 = (scaleXY templateWidth none page).1 ∧
    (scaleXY templateWidth none page).1 = templateWidth / page.Width :=
  ⟨rfl, rfl⟩

/-- C8: a templateHeight of exactly 0 is treated as absent: both
extractCoordinates and listAllText behave identically for some 0 and none,
and the scale computation falls back to scaleY = scaleX instead of 0. -/
theorem templateHeight_zero_as_absent (keywords : List KeywordPattern)
    (pdfData : PdfData) (templateX templateY templateWidth : ℚ) :
    extractCoordinates keywords pdfData templateX templateY templateWidth (some 0) =
      extractCoordinates keywords pdfData templateX templateY templateWidth none ∧
    listAllText pdfData templateX templateY templateWidth (some 0) =
      listAllText pdfData templateX templateY templateWidth none ∧
    ∀ page : Page, (scaleXY templateWidth (some 0) page).2 =
      (scaleXY templateWidth (some 0) page).1 := by
  have hscale : ∀ page : Page,
      scaleXY templateWidth (some 0) page = scaleXY templateWidth none page := by
    intro page; simp [scaleXY]
  refine ⟨?_, ?_, fun page => by simp [scaleXY]⟩
  · unfold extractCoordinates
    cases pdfData.Pages <;> simp [hscale]
  · unfold listAllText
    cases pdfData.Pages <;> simp [hscale]

/-- C10: loadKeywords accepts an empty keywords array as valid, yet
extractCoordinates rejects an empty keyword list with the error
"No keywords loaded." before looking at any PDF data. -/
theorem empty_keywords_rejected :
    loadKeywords ⟨some []⟩ = .ok [] ∧
    ∀ (pdfData : PdfData) (templateX templateY templateWidth : ℚ)
      (templateHeight : Option ℚ),
      extractCoordinates [] pdfData templateX templateY templateWidth templateHeight =
        .error "No keywords loaded." :=
  ⟨rfl, fun _ _ _ _ _ => rfl⟩

/-- C1: one fixed Y convention across operations: whenever both succeed,
every result of extractCoordinates has a listAllText entry for the same
fragment with the same normalized x and y (both compute
y = round(templateY + rawY * scaleY), no pageHeight flip); and the README
variant applies its flipped formula identically in both operations. -/
theorem y_convention_consistent (keywords : List KeywordPattern) (pdfData : PdfData)
    (templateX templateY templateWidth : ℚ) (templateHeight : Option ℚ)
    (hk : keywords ≠ []) (hp : pdfData.Pages ≠ []) :
    ∃ results entries,
      extractCoordinates keywords pdfData templateX templateY templateWidth
        templateHeight = .ok results ∧
      listAllText pdfData templateX templateY templateWidth templateHeight =
        .ok entries ∧
      (∀ r ∈ results, ∃ e ∈ entries, e.text = r.matchText ∧ e.x = r.x ∧ e.y = r.y) ∧
      (∀ tX tY sX sY vh t4 t5 : ℚ,
        readmeExtractXY tX tY sX sY vh t4 t5 = readmeScanXY tX tY sX sY vh t4 t5) := by
  obtain ⟨page, rest, hp'⟩ := List.exists_cons_of_ne_nil hp
  refine ⟨_, _,
    extractCoordinates_ok keywords pdfData templateX templateY templateWidth
      templateHeight page rest hk hp',
    listAllText_ok pdfData templateX templateY templateWidth templateHeight
      page rest hp', ?_, fun _ _ _ _ _ _ _ => rfl⟩
  intro r hr
  rw [List.mem_flatMap] at hr
  obtain ⟨ti, hti, hr⟩ := hr
  rw [List.mem_filterMap] at hr
  obtain ⟨run, hrun, hres⟩ := hr
  obtain ⟨hlen, kw, hfind, hrec⟩ := runResult_eq_some hres
  refine ⟨⟨r.matchText, r.x, r.y⟩, ?_, rfl, rfl, rfl⟩
  rw [List.mem_flatMap]
  refine ⟨ti, hti, List.mem_filterMap.mpr ⟨run, hrun, ?_⟩⟩
  rw [hrec]
  unfold listRun
  rw [if_pos (Nat.pos_of_ne_zero hlen)]

/-- C1 witness: instantiated on the spec scenario document. -/
theorem y_convention_consistent_witness :
    ∃ results entries,
      extractCoordinates dateKeywords samplePdf 0 0 210 none = .ok results ∧
      listAllText samplePdf 0 0 210 none = .ok entries ∧
      (∀ r ∈ results, ∃ e ∈ entries, e.text = r.matchText ∧ e.x = r.x ∧ e.y = r.y) ∧
      (∀ tX tY sX sY vh t4 t5 : ℚ,
        readmeExtractXY tX tY sX sY vh t4 t5 = readmeScanXY tX tY sX sY vh t4 t5) :=
  y_convention_consistent dateKeywords samplePdf 0 0 210 none
    (by simp [dateKeywords]) (by simp [samplePdf])

/-- Concrete evaluation of the spec scenario: keyword "Date", page 612x792,
fragment "Date: 01/02/2024" at raw (100, 700), templateWidth 210, no
templateHeight: the single result is sampleResult, whose x is 34. -/
theorem sample_extract_eval :
    extractCoordinates dateKeywords samplePdf 0 0 210 none = .ok [sampleResult] := by
  have h1 : jsTrim "Date: 01/02/2024" = "Date: 01/02/2024" := by decide
  have h2 : strIncludes "Date: 01/02/2024" "Date" = true := by decide
  rw [extractCoordinates_ok dateKeywords samplePdf 0 0 210 none samplePage []
    (by simp [dateKeywords]) rfl]
  have h3 : List.find? (fun kw => strIncludes "Date: 01/02/2024" kw.keyword)
      ([⟨"date_label", "Date"⟩] : List KeywordPattern) =
      some ⟨"date_label", "Date"⟩ := by decide
  simp only [samplePage, dateKeywords, scaleXY, List.flatMap_cons, List.flatMap_nil,
    List.filterMap_cons, List.filterMap_nil, List.append_nil, runResult, h1]
  rw [if_neg (by decide : ¬ ("Date: 01/02/2024".length = 0)), h3]
  simp only [Option.map_some', sampleResult]
  norm_num [jsRound, Rat.floor]

/-- C7: every emitted x is round(templateX + rawX * scaleX) with
scaleX = templateWidth / pageWidth; in particular the spec scenario
(rawX 100, pageWidth 612, templateWidth 210, templateX 0, no templateHeight)
emits x = 34. -/
theorem x_formula_rounding (keywords : List KeywordPattern) (pdfData : PdfData)
    (templateX templateY templateWidth : ℚ) (templateHeight : Option ℚ)
    (page : Page) (rest : List Page) (results : List CoordinateResult)
    (hk : keywords ≠ []) (hp : pdfData.Pages = page :: rest)
    (hok : extractCoordinates keywords pdfData templateX templateY templateWidth
      templateHeight = .ok results) :
    (∀ r ∈ results, ∃ ti ∈ page.Texts,
      r.x = jsRound (templateX + ti.x * (templateWidth / page.Width))) ∧
    (extractCoordinates dateKeywords samplePdf 0 0 210 none = .ok [sampleResult] ∧
     sampleResult.x = 34) := by
  refine ⟨?_, sample_extract_eval, rfl⟩
  rw [extractCoordinates_ok keywords pdfData templateX templateY templateWidth
    templateHeight page rest hk hp] at hok
  injection hok with hok
  subst hok
  intro r hr
  rw [List.mem_flatMap] at hr
  obtain ⟨ti, hti, hr⟩ := hr
  rw [List.mem_filterMap] at hr
  obtain ⟨run, hrun, hres⟩ := hr
  obtain ⟨hlen, kw, hfind, hrec⟩ := runResult_eq_some hres
  refine ⟨ti, hti, ?_⟩
  rw [hrec]
  rfl

/-- C7 witness: the formula instantiated on the spec scenario. -/
theorem x_formula_rounding_witness :
    (∀ r ∈ [sampleResult], ∃ ti ∈ samplePage.Texts,
      r.x = jsRound (0 + ti.x * ((210 : ℚ) / samplePage.Width))) ∧
    (extractCoordinates dateKeywords samplePdf 0 0 210 none = .ok [sampleResult] ∧
     sampleResult.x = 34) :=
  x_formula_rounding dateKeywords samplePdf 0 0 210 none samplePage [] [sampleResult]
    (by simp [dateKeywords]) rfl sample_extract_eval

/-- Concrete evaluation: tsRun with unit scales yields tsResult. -/
theorem ts_run_eval : runResult totalKeywords 0 0 1 1 tsItem tsRun = some tsResult := by
  have h1 : jsTrim "Total Amount" = "Total Amount" := by decide
  have h3 : List.find? (fun kw => strIncludes "Total Amount" kw.keyword)
      ([⟨"total_amount_label", "Total Amount"⟩] : List KeywordPattern) =
      some ⟨"total_amount_label", "Total Amount"⟩ := by decide
  simp only [runResult, totalKeywords, tsItem, tsRun, h1]
  rw [if_neg (by decide : ¬ ("Total Amount".length = 0)), h3]
  simp only [Option.map_some', tsResult]
  norm_num [jsRound, Rat.floor]

/-- C9: the emitted height is round(fontSize * scaleY) with fontSize the
run's TS[1] metadata, defaulting to a hard-coded 12 raw units when the run
has no TS metadata (never derived from the fragment's own raw size). -/
theorem height_from_fontsize (keywords : List KeywordPattern)
    (templateX templateY scaleX scaleY : ℚ) (ti : TextItem) (run : TextRun)
    (r : CoordinateResult)
    (h : runResult keywords templateX templateY scaleX scaleY ti run = some r) :
    (∀ ts, run.TS = some ts → r.height = jsRound (ts.2.1 * scaleY)) ∧
    (run.TS = none → r.height = jsRound (12 * scaleY)) := by
  obtain ⟨-, kw, -, hrec⟩ := runResult_eq_some h
  subst hrec
  constructor
  · intro ts hts
    simp only [hts]
  · intro hts
    simp only [hts]

/-- C9 witness: fontSize 9 with unit scaleY gives height jsRound (9 * 1). -/
theorem height_from_fontsize_witness :
    tsResult.height = jsRound ((9 : ℚ) * 1) :=
  (height_from_fontsize totalKeywords 0 0 1 1 tsItem tsRun tsResult ts_run_eval).1
    (0, 9, 0, 0) rfl

/-- C3: for a non-empty trimmed fragment the keywords are tested in list
order for case-insensitive substring containment: the first matching keyword
produces the single result (its field, the trimmed text as matchText) with
later keywords untested, no match produces nothing, and keyword "Total"
matches fragment text "TOTAL AMOUNT DUE". -/
theorem first_keyword_match (keywords : List KeywordPattern)
    (templateX templateY scaleX scaleY : ℚ) (ti : TextItem) (run : TextRun)
    (htext : jsTrim run.T ≠ "") :
    (∀ l₁ kw l₂, keywords = l₁ ++ kw :: l₂ →
      (∀ k ∈ l₁, strIncludes (jsTrim run.T) k.keyword = false) →
      strIncludes (jsTrim run.T) kw.keyword = true →
      runResult keywords templateX templateY scaleX scaleY ti run = some
        { field := kw.field
          x := jsRound (templateX + ti.x * scaleX)
          y := jsRound (templateY + ti.y * scaleY)
          width := jsRound (ti.w * scaleX)
          height := jsRound ((match run.TS with
            | some ts => ts.2.1
            | none => 12) * scaleY)
          matchText := jsTrim run.T }) ∧
    ((∀ k ∈ keywords, strIncludes (jsTrim run.T) k.keyword = false) →
      runResult keywords templateX templateY scaleX scaleY ti run = none) ∧
    strIncludes "TOTAL AMOUNT DUE" "Total" = true := by
  have hlen := string_length_ne_zero htext
  refine ⟨?_, ?_, by decide⟩
  · intro l₁ kw l₂ hsplit hnomatch hmatch
    subst hsplit
    unfold runResult
    rw [if_neg hlen, List.find?_append]
    have h1 : List.find? (fun k => strIncludes (jsTrim run.T) k.keyword) l₁ = none :=
      List.find?_eq_none.mpr fun k hk => by simp [hnomatch k hk]
    rw [h1]
    simp only [List.find?_cons, hmatch, Option.none_or, cond_true, Option.map_some']
  · intro hnone
    unfold runResult
    rw [if_neg hlen,
      List.find?_eq_none.mpr fun k hk => by simp [hnone k hk]]
    rfl

/-- C3 witness: with keywords [xyz, Total] in order, the fragment
"TOTAL AMOUNT DUE" skips the non-matching first keyword and emits one result
for the second. -/
theorem first_keyword_match_witness :
    runResult [⟨"other", "xyz"⟩, ⟨"total", "Total"⟩] 0 0 1 1 tsItem
        ⟨"TOTAL AMOUNT DUE", none⟩ = some
      { field := "total"
        x := jsRound (0 + tsItem.x * 1)
        y := jsRound (0 + tsItem.y * 1)
        width := jsRound (tsItem.w * 1)
        height := jsRound ((match (⟨"TOTAL AMOUNT DUE", none⟩ : TextRun).TS with
          | some ts => ts.2.1
          | none => 12) * 1)
        matchText := jsTrim "TOTAL AMOUNT DUE" } ∧
    strIncludes "TOTAL AMOUNT DUE" "Total" = true :=
  ⟨(first_keyword_match [⟨"other", "xyz"⟩, ⟨"total", "Total"⟩] 0 0 1 1 tsItem
      ⟨"TOTAL AMOUNT DUE", none⟩ (by decide)).1
      [⟨"other", "xyz"⟩] ⟨"total", "Total"⟩ [] rfl (by decide) (by decide),
   (first_keyword_match [⟨"other", "xyz"⟩, ⟨"total", "Total"⟩] 0 0 1 1 tsItem
      ⟨"TOTAL AMOUNT DUE", none⟩ (by decide)).2.2⟩

/-- Helper: lookup after the replace-in-place branch of objSet. -/
theorem lookup_map_objSet (acc : List (String × JsonObj)) (k f : String) (v : JsonObj) :
    (acc.map fun p => if p.1 == k then (k, v) else p).lookup f =
      if f = k then (if acc.any (fun p => p.1 == k) then some v else none)
      else acc.lookup f := by
  induction acc with
  | nil => by_cases h : f = k <;> simp [h]
  | cons p t ih =>
    obtain ⟨k', v'⟩ := p
    simp only [List.map_cons, List.any_cons]
    by_cases h1 : k' = k
    · subst h1
      simp only [beq_self_eq_true, if_true, Bool.true_or, List.lookup_cons]
      by_cases h2 : f = k'
      · subst h2
        simp
      · simp only [beq_false_of_ne h2, if_neg h2, ih, if_neg h2]
    · have hc : ¬((k' == k) = true) := by simp [h1]
      rw [if_neg hc]
      simp only [beq_false_of_ne h1, Bool.false_or]
      by_cases h2 : f = k'
      · subst h2
        have h3 : f ≠ k := h1
        simp [if_neg h3, List.lookup_cons]
      · rw [List.lookup_cons, beq_false_of_ne h2, List.lookup_cons,
          beq_false_of_ne h2]
        exact ih

/-- Helper: lookup after objSet: the just-set key maps to the new value,
every other key is untouched. -/
theorem lookup_objSet (acc : List (String × JsonObj)) (k f : String) (v : JsonObj) :
    (objSet acc k v).lookup f = if f = k then some v else acc.lookup f := by
  unfold objSet
  by_cases hany : acc.any (fun p => p.1 == k)
  · rw [if_pos hany, lookup_map_objSet, if_pos hany]
  · rw [if_neg hany, List.lookup_append]
    by_cases h2 : f = k
    · subst h2
      have hnone : acc.lookup f = none := by
        rw [List.lookup_eq_none_iff]
        intro p hp
        simp only [bne_iff_ne, ne_eq]
        intro hpf
        exact hany (List.any_eq_true.mpr ⟨p, hp, by simp [← hpf]⟩)
      simp [hnone, List.lookup_cons]
    · simp only [List.lookup_cons, beq_false_of_ne h2, List.lookup_nil, if_neg h2]
      cases acc.lookup f <;> rfl

/-- Helper: lookup in the fold that builds the keyed output mapping: the
last result in list order for a field wins; with no result for the field the
accumulator's binding persists. -/
theorem lookup_fold_objSet (coords : List CoordinateResult)
    (acc : List (String × JsonObj)) (f : String) :
    (coords.foldl (fun acc c => objSet acc c.field (resultRecord c)) acc).lookup f =
      match coords.reverse.find? (fun c => c.field == f) with
      | some c => some (resultRecord c)
      | none => acc.lookup f := by
  induction coords generalizing acc with
  | nil => simp
  | cons c t ih =>
    rw [List.foldl_cons, ih, List.reverse_cons, List.find?_append]
    cases hfind : t.reverse.find? (fun c => c.field == f) with
    | some c' => rfl
    | none =>
      simp only [Option.none_or]
      rw [lookup_objSet, List.find?_cons]
      cases hb : (c.field == f) with
      | true =>
        have hcf : c.field = f := by simpa using hb
        rw [if_pos hcf.symm]
      | false =>
        have hcf : ¬ c.field = f := by simpa using hb
        rw [if_neg fun h => hcf h.symm]
        rfl

/-- Helper: objSet preserves having at most one binding per key. -/
theorem filter_objSet_le_one (acc : List (String × JsonObj)) (k f : String)
    (v : JsonObj) (h : (acc.filter fun p => p.1 == f).length ≤ 1) :
    ((objSet acc k v).filter fun p => p.1 == f).length ≤ 1 := by
  unfold objSet
  by_cases hany : acc.any (fun p => p.1 == k)
  · rw [if_pos hany, List.filter_map, List.length_map]
    have hcongr : acc.filter ((fun p : String × JsonObj => p.1 == f) ∘
        fun p => if p.1 == k then (k, v) else p) =
        acc.filter fun p => p.1 == f := by
      apply List.filter_congr
      intro p hp
      by_cases hpk : p.1 = k
      · simp [Function.comp, hpk]
      · simp [Function.comp, beq_false_of_ne hpk]
    rw [hcongr]
    exact h
  · rw [if_neg hany, List.filter_append]
    by_cases hkf : k = f
    · subst hkf
      have hempty : acc.filter (fun p => p.1 == k) = [] := by
        rw [List.filter_eq_nil_iff]
        intro p hp hpk
        exact hany (List.any_eq_true.mpr ⟨p, hp, hpk⟩)
      rw [hempty]
      simp
    · have hsingle : ([(k, v)].filter fun p => p.1 == f) = [] := by
        simp [beq_false_of_ne hkf]
      rw [hsingle, List.append_nil]
      exact h

/-- Helper: the keyed output fold keeps at most one binding per key. -/
theorem filter_fold_objSet_le_one (coords : List CoordinateResult)
    (acc : List (String × JsonObj)) (f : String)
    (h : (acc.filter fun p => p.1 == f).length ≤ 1) :
    (((coords.foldl (fun acc c => objSet acc c.field (resultRecord c)) acc).filter
      fun p => p.1 == f).length ≤ 1) := by
  induction coords generalizing acc with
  | nil => exact h
  | cons c t ih =>
    rw [List.foldl_cons]
    exact ih _ (filter_objSet_le_one acc c.field f (resultRecord c) h)

/-- C5: last write wins in the keyed output: in both generateJSON and
generateArray the binding for a field is the record of the last result in
list order carrying that field (earlier results for the field do not
survive, and the mapping holds at most one binding per field); both
functions are total, producing no warning or error. -/
theorem last_write_wins (coords : List CoordinateResult) (f : String) :
    (generateJSON coords).lookup f =
      (coords.reverse.find? fun c => c.field == f).map resultRecord ∧
    (generateArray coords).lookup f =
      (coords.reverse.find? fun c => c.field == f).map resultRecord ∧
    ((generateArray coords).filter fun p => p.1 == f).length ≤ 1 := by
  refine ⟨?_, ?_, filter_fold_objSet_le_one coords [] f (by simp)⟩
  · rw [generateJSON, lookup_fold_objSet]
    cases coords.reverse.find? fun c => c.field == f <;> rfl
  · rw [generateArray, lookup_fold_objSet]
    cases coords.reverse.find? fun c => c.field == f <;> rfl

/-- C4 counterexample: the persisted array encoding does contain a matchText
entry: generateArray, which the extract action serializes to the output file
for format array, keeps matchText in every record. -/
theorem generateArray_contains_matchText :
    generateArray [⟨"total_amount_label", 150, 200, 90, 12, "Total Amount"⟩] =
      [("total_amount_label",
        [("x", JsonVal.num 150), ("y", JsonVal.num 200), ("width", JsonVal.num 90),
         ("height", JsonVal.num 12), ("matchText", JsonVal.str "Total Amount")])] ∧
    ("matchText", JsonVal.str "Total Amount") ∈
      resultRecord ⟨"total_amount_label", 150, 200, 90, 12, "Total Amount"⟩ :=
  ⟨rfl, by simp [resultRecord]⟩

/-- C4 amended: the array and JSON encodings produce identical field-keyed
mappings, matchText included in both; only the console PHP-array rendering
omits matchText from its records, keeping it as a comment annotation. -/
theorem array_json_same_records (coords : List CoordinateResult)
    (c : CoordinateResult) :
    generateArray coords = generateJSON coords ∧
    consoleArrayRecord c = (resultRecord c).filter (fun p => p.1 != "matchText") ∧
    ("matchText", JsonVal.str c.matchText) ∈ resultRecord c :=
  ⟨rfl, rfl, by simp [resultRecord]⟩

/-- C6: when extraction succeeds with zero keyword matches the extract
command exits with code 1 and writes nothing to the output file: the
zero-result check aborts before any serialization or write. -/
theorem zero_matches_no_output (payload : KeywordsPayload) (pdfData : PdfData)
    (templateX templateY templateWidth : ℚ) (templateHeight : Option ℚ)
    (outputPath : Option String) (format : String) (kws : List KeywordPattern)
    (hload : loadKeywords payload = .ok kws)
    (hzero : extractCoordinates kws pdfData templateX templateY templateWidth
      templateHeight = .ok []) :
    extractAction payload pdfData templateX templateY templateWidth templateHeight
      outputPath format = { exitCode := 1, written := none } := by
  unfold extractAction
  simp only [hload, hzero]
  rfl

/-- C6 witness: a one-keyword configuration matching nothing in helloPdf. -/
theorem zero_matches_no_output_witness :
    extractAction ⟨some [⟨"total", "Total"⟩]⟩ helloPdf 0 0 210 none
      (some "out.json") "json" = { exitCode := 1, written := none } :=
  zero_matches_no_output ⟨some [⟨"total", "Total"⟩]⟩ helloPdf 0 0 210 none
    (some "out.json") "json" [⟨"total", "Total"⟩] rfl (by rfl)
